import Mathlib

/-!
Verification of the commodity-forecast-retrieval repository: two standalone
scripts (src/scripts/web-search-chat-completion.py and
src/scripts/web-search-response.py) that each issue a single request to a
remote completion service with the web-search tool capability enabled and
print the result.  We shallowly embed the data each script handles, the
request each script constructs, and the script bodies themselves as small
effect programs interpreted against an arbitrary remote client, and prove
the specified properties of the single-shot query invoker and of the two
display steps.
-/

namespace WebSearchScripts

/-! ### Python value model

The response script serializes `response.output` with
`json.dumps(response.output, default=lambda o: o.__dict__, indent=2)`.
We model the Python values that serialization can meet: JSON-native values
(None, bool, int, str, list, dict) and attribute-carrying objects.  An
object either exposes an attribute dictionary `__dict__` (constructor
`vobjD`) or does not (constructor `vobjS`, e.g. a slotted object), in which
case the fallback `lambda o: o.__dict__` raises an AttributeError. -/

mutual

inductive PyVal : Type where
  | vnull : PyVal
  | vbool : Bool → PyVal
  | vint : Int → PyVal
  | vstr : String → PyVal
  | vlist : PyList → PyVal
  | vdict : PyFields → PyVal
  | vobjD : PyFields → PyVal
  | vobjS : PyVal
deriving DecidableEq

inductive PyList : Type where
  | nil : PyList
  | cons : PyVal → PyList → PyList
deriving DecidableEq

inductive PyFields : Type where
  | nil : PyFields
  | cons : String → PyVal → PyFields → PyFields
deriving DecidableEq

end

def PyList.length : PyList → Nat
  | .nil => 0
  | .cons _ tl => 1 + tl.length

def PyList.get? : PyList → Nat → Option PyVal
  | .nil, _ => none
  | .cons v _, 0 => some v
  | .cons _ tl, n + 1 => tl.get? n

/-! ### JSON document model

The tree structure that `json.dumps` renders to text. -/

mutual

inductive Json : Type where
  | jnull : Json
  | jbool : Bool → Json
  | jint : Int → Json
  | jstr : String → Json
  | jarr : JList → Json
  | jobj : JFields → Json
deriving DecidableEq

inductive JList : Type where
  | nil : JList
  | cons : Json → JList → JList
deriving DecidableEq

inductive JFields : Type where
  | nil : JFields
  | cons : String → Json → JFields → JFields
deriving DecidableEq

end

def JList.length : JList → Nat
  | .nil => 0
  | .cons _ tl => 1 + tl.length

/-! ### Serialization: the structural part of json.dumps with the
`default=lambda o: o.__dict__` fallback.

JSON-native values are serialized directly; a non-native object is handed
to the fallback, which returns its attribute dictionary for recursive
serialization when it has one and raises when it has none.  Failure is
modelled as `none`. -/

mutual

def serialize : PyVal → Option Json
  | .vnull => some .jnull
  | .vbool b => some (.jbool b)
  | .vint n => some (.jint n)
  | .vstr s => some (.jstr s)
  | .vlist xs => (serializeList xs).map .jarr
  | .vdict kvs => (serializeFields kvs).map .jobj
  | .vobjD attrs => (serializeFields attrs).map .jobj
  | .vobjS => none

def serializeList : PyList → Option JList
  | .nil => some .nil
  | .cons v tl =>
      match serialize v, serializeList tl with
      | some j, some js => some (.cons j js)
      | _, _ => none

def serializeFields : PyFields → Option JFields
  | .nil => some .nil
  | .cons k v tl =>
      match serialize v, serializeFields tl with
      | some j, some js => some (.cons k j js)
      | _, _ => none

end

/-! Recovery of a Python value from its serialized JSON document: JSON
objects come back as attribute-carrying objects (the shape of the response
output items). -/

mutual

def jsonToPy : Json → PyVal
  | .jnull => .vnull
  | .jbool b => .vbool b
  | .jint n => .vint n
  | .jstr s => .vstr s
  | .jarr xs => .vlist (jsonToPyList xs)
  | .jobj kvs => .vobjD (jsonToPyFields kvs)

def jsonToPyList : JList → PyList
  | .nil => .nil
  | .cons j js => .cons (jsonToPy j) (jsonToPyList js)

def jsonToPyFields : JFields → PyFields
  | .nil => .nil
  | .cons k j js => .cons k (jsonToPy j) (jsonToPyFields js)

end

/-! `allDict` holds when every object reachable inside the value carries an
attribute dictionary, so the serialization fallback never raises.
`plainPy` additionally rules out raw Python dicts, which a rendered JSON
document cannot distinguish from objects; response output items and their
sub-objects are attribute-carrying SDK objects, not raw dicts. -/

mutual

def PyVal.allDict : PyVal → Bool
  | .vnull => true
  | .vbool _ => true
  | .vint _ => true
  | .vstr _ => true
  | .vlist xs => xs.allDict
  | .vdict kvs => kvs.allDict
  | .vobjD attrs => attrs.allDict
  | .vobjS => false

def PyList.allDict : PyList → Bool
  | .nil => true
  | .cons v tl => v.allDict && tl.allDict

def PyFields.allDict : PyFields → Bool
  | .nil => true
  | .cons _ v tl => v.allDict && tl.allDict

end

mutual

def PyVal.plainPy : PyVal → Bool
  | .vnull => true
  | .vbool _ => true
  | .vint _ => true
  | .vstr _ => true
  | .vlist xs => xs.plainPy
  | .vdict _ => false
  | .vobjD attrs => attrs.plainPy
  | .vobjS => false

def PyList.plainPy : PyList → Bool
  | .nil => true
  | .cons v tl => v.plainPy && tl.plainPy

def PyFields.plainPy : PyFields → Bool
  | .nil => true
  | .cons _ v tl => v.plainPy && tl.plainPy

end

/-! ### Text rendering: json.dumps(..., indent=2)

Python renders with an indentation step of two spaces, item separator
",\n" and key separator ": ", escaping quotes, backslashes and the common
control characters inside string literals. -/

def escapeChar (c : Char) : String :=
  if c = '"' then "\\\""
  else if c = '\\' then "\\\\"
  else if c = '\n' then "\\n"
  else if c = '\t' then "\\t"
  else if c = '\r' then "\\r"
  else String.singleton c

def quoteStr (s : String) : String :=
  "\"" ++ String.join (s.data.map escapeChar) ++ "\""

def pad (n : Nat) : String :=
  String.mk (List.replicate n ' ')

mutual

def dumpJson (ind : Nat) : Json → String
  | .jnull => "null"
  | .jbool b => if b then "true" else "false"
  | .jint n => toString n
  | .jstr s => quoteStr s
  | .jarr .nil => "[]"
  | .jarr (.cons x tl) =>
      "[\n" ++ pad (ind + 2) ++ dumpJson (ind + 2) x ++ dumpJList (ind + 2) tl
        ++ "\n" ++ pad ind ++ "]"
  | .jobj .nil => "\x7b\x7d"
  | .jobj (.cons k v tl) =>
      "\x7b\n" ++ pad (ind + 2) ++ quoteStr k ++ ": " ++ dumpJson (ind + 2) v
        ++ dumpJFields (ind + 2) tl ++ "\n" ++ pad ind ++ "\x7d"

def dumpJList (ind : Nat) : JList → String
  | .nil => ""
  | .cons x tl => ",\n" ++ pad ind ++ dumpJson ind x ++ dumpJList ind tl

def dumpJFields (ind : Nat) : JFields → String
  | .nil => ""
  | .cons k v tl =>
      ",\n" ++ pad ind ++ quoteStr k ++ ": " ++ dumpJson ind v ++ dumpJFields ind tl

end

/-! ### Requests and responses

The wire shapes the two scripts construct and receive, shallowly embedded:
the chat-completion script sends a model identifier, a
`web_search_options` entry and a message list; the response script sends a
model identifier, an input string and a tools list.  A chat completion
carries a list of choices, each with a message; a responses-API response
carries an ordered list of output items, modelled as Python objects. -/

structure ChatMessage : Type where
  role : String
  content : String
deriving DecidableEq

structure ChatRequest : Type where
  model : String
  web_search_options : Option (List (String × String))
  messages : List ChatMessage
deriving DecidableEq

structure ChoiceMessage : Type where
  content : String
deriving DecidableEq

structure Choice : Type where
  message : ChoiceMessage
deriving DecidableEq

structure ChatCompletion : Type where
  choices : List Choice
deriving DecidableEq

structure ToolEntry : Type where
  type : String
deriving DecidableEq

structure ResponsesRequest : Type where
  model : String
  input : String
  tools : List ToolEntry
deriving DecidableEq

structure ResponsesResponse : Type where
  output : PyList
deriving DecidableEq

/-- Errors a script run can surface: whatever the remote call raises
(authentication, network, invalid request, service error — carried
opaquely as a message), the IndexError from an out-of-range list index,
and the AttributeError from the serialization fallback. -/
inductive PyErr : Type where
  | apiError : String → PyErr
  | indexError : PyErr
  | attributeError : String → PyErr
deriving DecidableEq

/-! ### Effect programs

Each script is a straight-line program over observable effects: the
outbound network calls, writing to standard output, and (never used by
these scripts, which is the point of the frame claims) file writes and
environment mutation.  A program is interpreted against a client giving
the remote service's answer to each request. -/

inductive Effect : Type where
  | netCallChat : ChatRequest → Effect
  | netCallResponses : ResponsesRequest → Effect
  | printOut : String → Effect
  | fileWrite : String → String → Effect
  | envSet : String → String → Effect
deriving DecidableEq

inductive Prog (α : Type) : Type where
  | pure : α → Prog α
  | netChat : ChatRequest → (Except PyErr ChatCompletion → Prog α) → Prog α
  | netResponses : ResponsesRequest → (Except PyErr ResponsesResponse → Prog α) → Prog α
  | printOut : String → Prog α → Prog α
  | fileWrite : String → String → Prog α → Prog α
  | envSet : String → String → Prog α → Prog α
  | raise : PyErr → Prog α

def Prog.bind {α β : Type} : Prog α → (α → Prog β) → Prog β
  | .pure a, g => g a
  | .netChat req k, g => .netChat req (fun r => (k r).bind g)
  | .netResponses req k, g => .netResponses req (fun r => (k r).bind g)
  | .printOut s k, g => .printOut s (k.bind g)
  | .fileWrite p s k, g => .fileWrite p s (k.bind g)
  | .envSet a b k, g => .envSet a b (k.bind g)
  | .raise e, _ => .raise e

/-- The remote service boundary: answers each request with a response or an
error.  A stubbed client is any inhabitant. -/
structure Client : Type where
  chat : ChatRequest → Except PyErr ChatCompletion
  responses : ResponsesRequest → Except PyErr ResponsesResponse

/-- Interpreter: run a program against a client, observing the trace of
effects and the outcome. -/
def runProg {α : Type} (c : Client) : Prog α → List Effect × Except PyErr α
  | .pure a => ([], .ok a)
  | .netChat req k =>
      let rest := runProg c (k (c.chat req))
      (.netCallChat req :: rest.1, rest.2)
  | .netResponses req k =>
      let rest := runProg c (k (c.responses req))
      (.netCallResponses req :: rest.1, rest.2)
  | .printOut s k =>
      let rest := runProg c k
      (.printOut s :: rest.1, rest.2)
  | .fileWrite p s k =>
      let rest := runProg c k
      (.fileWrite p s :: rest.1, rest.2)
  | .envSet a b k =>
      let rest := runProg c k
      (.envSet a b :: rest.1, rest.2)
  | .raise e => ([], .error e)

/-! ### The scripts -/

/-- Modelled from the spec: request construction of the Single-Shot Query
Invoker, chat-completion variant.  The script only instantiates it at
model "gpt-4.1", the fixed prompt and the capability enabled, so the
parametrization over model identifier, prompt and the web-search
capability flag follows the spec's invoker contract; the request shape —
`web_search_options` present as an empty option mapping exactly when the
capability is enabled, and a single user message carrying the prompt — is
taken from the script. -/
def mkChatRequest (model prompt : String) (webSearch : Bool) : ChatRequest :=
  { model := model
    web_search_options := if webSearch then some [] else none
    messages := [{ role := "user", content := prompt }] }

/-- Modelled from the spec: request construction of the Single-Shot Query
Invoker, responses-API variant.  The script only instantiates it at model
"gpt-4.1-mini", the fixed input and the tool set containing exactly
"web_search", so the parametrization over model identifier, input and the
enabled tool set follows the spec's invoker contract; the request shape —
a tools list holding one entry per enabled capability tag — is taken from
the script. -/
def mkResponsesRequest (model input : String) (enabledTools : List String) :
    ResponsesRequest :=
  { model := model
    input := input
    tools := enabledTools.map ToolEntry.mk }

/-- Modelled from the spec: the Single-Shot Query Invoker (chat-completion
variant), parametrized as the spec's component contract requires while the
script fixes every argument.  It constructs the request, performs the one
remote call, and returns the response payload unmodified; any error the
call raises propagates uncaught. -/
def invokeChat (model prompt : String) (webSearch : Bool) : Prog ChatCompletion :=
  .netChat (mkChatRequest model prompt webSearch) fun r =>
    match r with
    | .error e => .raise e
    | .ok completion => .pure completion

/-- Modelled from the spec: the Single-Shot Query Invoker (responses-API
variant), parametrized as the spec's component contract requires while the
script fixes every argument.  It constructs the request, performs the one
remote call, and returns the response payload unmodified; any error the
call raises propagates uncaught. -/
def invokeResponses (model input : String) (enabledTools : List String) :
    Prog ResponsesResponse :=
  .netResponses (mkResponsesRequest model input enabledTools) fun r =>
    match r with
    | .error e => .raise e
    | .ok response => .pure response

/-- Display step of the chat-completion script:
print(completion.choices[0].message.content).  The index into the choices
list is unguarded; an empty list raises IndexError. -/
def displayChat (c : ChatCompletion) : Except PyErr String :=
  match c.choices with
  | [] => .error .indexError
  | ch :: _ => .ok ch.message.content

/-- Display step of the response script:
json.dumps(response.output, default=lambda o: o.__dict__, indent=2) —
structural serialization with the attribute-dictionary fallback, then the
indent-2 text rendering.  An output sub-object reaching the fallback
without a __dict__ raises AttributeError. -/
def displayResponses (r : ResponsesResponse) : Except PyErr String :=
  match serializeList r.output with
  | none => .error (.attributeError "__dict__")
  | some js => .ok (dumpJson 0 (.jarr js))

/-- The prompt hard-coded in src/scripts/web-search-chat-completion.py. -/
def chatPrompt : String :=
  "what is the current price of crude oil today? Also, please find me forecast for the next 30 days for crude oil price and sources"

/-- The input hard-coded in src/scripts/web-search-response.py. -/
def responsesPrompt : String :=
  "What was a positive news story from today?"

/-- src/scripts/web-search-chat-completion.py: one chat-completion call
with web_search_options enabled and the fixed prompt, then print the first
choice's message content. -/
def chatScript : Prog Unit :=
  (invokeChat "gpt-4.1" chatPrompt true).bind fun completion =>
    match displayChat completion with
    | .error e => .raise e
    | .ok s => .printOut s (.pure ())

/-- src/scripts/web-search-response.py: one responses-API call with the
web_search tool and the fixed input, then print the serialized output
list. -/
def responsesScript : Prog Unit :=
  (invokeResponses "gpt-4.1-mini" responsesPrompt ["web_search"]).bind fun response =>
    match displayResponses response with
    | .error e => .raise e
    | .ok s => .printOut s (.pure ())

/-! ### Serialization lemmas -/

mutual

theorem serialize_isSome_allDict : ∀ v : PyVal, (serialize v).isSome = v.allDict
  | .vnull => rfl
  | .vbool _ => rfl
  | .vint _ => rfl
  | .vstr _ => rfl
  | .vlist xs => by
      have h := serializeList_isSome_allDict xs
      cases hx : serializeList xs <;>
        rw [hx] at h <;> simp at h <;> simp [serialize, PyVal.allDict, hx, h]
  | .vdict kvs => by
      have h := serializeFields_isSome_allDict kvs
      cases hx : serializeFields kvs <;>
        rw [hx] at h <;> simp at h <;> simp [serialize, PyVal.allDict, hx, h]
  | .vobjD attrs => by
      have h := serializeFields_isSome_allDict attrs
      cases hx : serializeFields attrs <;>
        rw [hx] at h <;> simp at h <;> simp [serialize, PyVal.allDict, hx, h]
  | .vobjS => rfl

theorem serializeList_isSome_allDict : ∀ xs : PyList, (serializeList xs).isSome = xs.allDict
  | .nil => rfl
  | .cons v tl => by
      have hv := serialize_isSome_allDict v
      have ht := serializeList_isSome_allDict tl
      cases hx : serialize v <;> cases hy : serializeList tl <;>
        rw [hx] at hv <;> rw [hy] at ht <;> simp at hv ht <;>
        simp [serializeList, PyList.allDict, hx, hy, hv, ht]

theorem serializeFields_isSome_allDict :
    ∀ kvs : PyFields, (serializeFields kvs).isSome = kvs.allDict
  | .nil => rfl
  | .cons k v tl => by
      have hv := serialize_isSome_allDict v
      have ht := serializeFields_isSome_allDict tl
      cases hx : serialize v <;> cases hy : serializeFields tl <;>
        rw [hx] at hv <;> rw [hy] at ht <;> simp at hv ht <;>
        simp [serializeFields, PyFields.allDict, hx, hy, hv, ht]

end

mutual

theorem jsonToPy_serialize :
    ∀ v : PyVal, v.plainPy = true → ∀ j : Json, serialize v = some j → jsonToPy j = v
  | .vnull, _, j, h => by
      simp [serialize] at h; subst h; rfl
  | .vbool _, _, j, h => by
      simp [serialize] at h; subst h; rfl
  | .vint _, _, j, h => by
      simp [serialize] at h; subst h; rfl
  | .vstr _, _, j, h => by
      simp [serialize] at h; subst h; rfl
  | .vlist xs, hp, j, h => by
      cases hx : serializeList xs with
      | none => rw [serialize, hx] at h; simp at h
      | some js =>
          rw [serialize, hx] at h
          simp at h; subst h
          have := jsonToPyList_serializeList xs (by simpa [PyVal.plainPy] using hp) js hx
          simp [jsonToPy, this]
  | .vobjD attrs, hp, j, h => by
      cases hx : serializeFields attrs with
      | none => rw [serialize, hx] at h; simp at h
      | some js =>
          rw [serialize, hx] at h
          simp at h; subst h
          have := jsonToPyFields_serializeFields attrs (by simpa [PyVal.plainPy] using hp) js hx
          simp [jsonToPy, this]

theorem jsonToPyList_serializeList :
    ∀ xs : PyList, xs.plainPy = true → ∀ js : JList,
      serializeList xs = some js → jsonToPyList js = xs
  | .nil, _, js, h => by
      simp [serializeList] at h; subst h; rfl
  | .cons v tl, hp, js, h => by
      have hp' : v.plainPy = true ∧ tl.plainPy = true := by
        simpa [PyList.plainPy, Bool.and_eq_true] using hp
      cases hx : serialize v with
      | none => rw [serializeList, hx] at h; simp at h
      | some j =>
          cases hy : serializeList tl with
          | none => rw [serializeList, hx, hy] at h; simp at h
          | some js2 =>
              rw [serializeList, hx, hy] at h
              simp at h; subst h
              have h1 := jsonToPy_serialize v hp'.1 j hx
              have h2 := jsonToPyList_serializeList tl hp'.2 js2 hy
              simp [jsonToPyList, h1, h2]

theorem jsonToPyFields_serializeFields :
    ∀ kvs : PyFields, kvs.plainPy = true → ∀ js : JFields,
      serializeFields kvs = some js → jsonToPyFields js = kvs
  | .nil, _, js, h => by
      simp [serializeFields] at h; subst h; rfl
  | .cons k v tl, hp, js, h => by
      have hp' : v.plainPy = true ∧ tl.plainPy = true := by
        simpa [PyFields.plainPy, Bool.and_eq_true] using hp
      cases hx : serialize v with
      | none => rw [serializeFields, hx] at h; simp at h
      | some j =>
          cases hy : serializeFields tl with
          | none => rw [serializeFields, hx, hy] at h; simp at h
          | some js2 =>
              rw [serializeFields, hx, hy] at h
              simp at h; subst h
              have h1 := jsonToPy_serialize v hp'.1 j hx
              have h2 := jsonToPyFields_serializeFields tl hp'.2 js2 hy
              simp [jsonToPyFields, h1, h2]

end

mutual

theorem plainPy_allDict : ∀ v : PyVal, v.plainPy = true → v.allDict = true
  | .vnull, _ => rfl
  | .vbool _, _ => rfl
  | .vint _, _ => rfl
  | .vstr _, _ => rfl
  | .vlist xs, hp => by
      simpa [PyVal.allDict] using
        plainPyList_allDict xs (by simpa [PyVal.plainPy] using hp)
  | .vobjD attrs, hp => by
      simpa [PyVal.allDict] using
        plainPyFields_allDict attrs (by simpa [PyVal.plainPy] using hp)

theorem plainPyList_allDict : ∀ xs : PyList, xs.plainPy = true → xs.allDict = true
  | .nil, _ => rfl
  | .cons v tl, hp => by
      have hp' : v.plainPy = true ∧ tl.plainPy = true := by
        simpa [PyList.plainPy, Bool.and_eq_true] using hp
      simp [PyList.allDict, plainPy_allDict v hp'.1, plainPyList_allDict tl hp'.2]

theorem plainPyFields_allDict : ∀ kvs : PyFields, kvs.plainPy = true → kvs.allDict = true
  | .nil, _ => rfl
  | .cons k v tl, hp => by
      have hp' : v.plainPy = true ∧ tl.plainPy = true := by
        simpa [PyFields.plainPy, Bool.and_eq_true] using hp
      simp [PyFields.allDict, plainPy_allDict v hp'.1, plainPyFields_allDict tl hp'.2]

end

theorem serializeList_length :
    ∀ (xs : PyList) (js : JList), serializeList xs = some js → js.length = xs.length
  | .nil, js, h => by
      simp [serializeList] at h; subst h; rfl
  | .cons v tl, js, h => by
      cases hx : serialize v with
      | none => rw [serializeList, hx] at h; simp at h
      | some j =>
          cases hy : serializeList tl with
          | none => rw [serializeList, hx, hy] at h; simp at h
          | some js2 =>
              rw [serializeList, hx, hy] at h
              simp at h; subst h
              simp [JList.length, PyList.length, serializeList_length tl js2 hy]

/-! ### Script trace lemmas -/

def Effect.chatRequest? : Effect → Option ChatRequest
  | .netCallChat req => some req
  | _ => none

def Effect.responsesRequest? : Effect → Option ResponsesRequest
  | .netCallResponses req => some req
  | _ => none

/-- A stubbed client answering every request with the given fixed payloads. -/
def stubClient (cc : ChatCompletion) (rr : ResponsesResponse) : Client :=
  { chat := fun _ => .ok cc
    responses := fun _ => .ok rr }

/-- A stubbed client raising the given error on every request. -/
def failClient (e : PyErr) : Client :=
  { chat := fun _ => .error e
    responses := fun _ => .error e }

/-- The request constructed by the chat-completion script. -/
def chatScriptRequest : ChatRequest := mkChatRequest "gpt-4.1" chatPrompt true

/-- The request constructed by the response script. -/
def responsesScriptRequest : ResponsesRequest :=
  mkResponsesRequest "gpt-4.1-mini" responsesPrompt ["web_search"]

theorem chatScript_trace_shape (client : Client) :
    (runProg client chatScript).1 = [.netCallChat chatScriptRequest] ∨
    ∃ s, (runProg client chatScript).1 =
      [.netCallChat chatScriptRequest, .printOut s] := by
  cases h : client.chat chatScriptRequest with
  | error e =>
      left
      simp [chatScript, invokeChat, Prog.bind, runProg, chatScriptRequest] at h ⊢
      simp [h, runProg]
  | ok c =>
      cases hc : c.choices with
      | nil =>
          left
          simp [chatScript, invokeChat, Prog.bind, runProg, chatScriptRequest] at h ⊢
          simp [h, displayChat, hc, runProg, Prog.bind]
      | cons ch tl =>
          right
          refine ⟨ch.message.content, ?_⟩
          simp [chatScript, invokeChat, Prog.bind, runProg, chatScriptRequest] at h ⊢
          simp [h, displayChat, hc, runProg, Prog.bind]

theorem responsesScript_trace_shape (client : Client) :
    (runProg client responsesScript).1 = [.netCallResponses responsesScriptRequest] ∨
    ∃ s, (runProg client responsesScript).1 =
      [.netCallResponses responsesScriptRequest, .printOut s] := by
  cases h : client.responses responsesScriptRequest with
  | error e =>
      left
      simp [responsesScript, invokeResponses, Prog.bind, runProg,
        responsesScriptRequest] at h ⊢
      simp [h, runProg]
  | ok r =>
      cases hd : displayResponses r with
      | error e =>
          left
          simp [responsesScript, invokeResponses, Prog.bind, runProg,
            responsesScriptRequest] at h ⊢
          simp [h, hd, runProg, Prog.bind]
      | ok s =>
          right
          refine ⟨s, ?_⟩
          simp [responsesScript, invokeResponses, Prog.bind, runProg,
            responsesScriptRequest] at h ⊢
          simp [h, hd, runProg, Prog.bind]

theorem invokeChat_run (client : Client) (model prompt : String) (ws : Bool) :
    runProg client (invokeChat model prompt ws) =
      ([.netCallChat (mkChatRequest model prompt ws)],
        client.chat (mkChatRequest model prompt ws)) := by
  cases h : client.chat (mkChatRequest model prompt ws) <;>
    simp [invokeChat, runProg, h]

theorem invokeResponses_run (client : Client) (model input : String)
    (ts : List String) :
    runProg client (invokeResponses model input ts) =
      ([.netCallResponses (mkResponsesRequest model input ts)],
        client.responses (mkResponsesRequest model input ts)) := by
  cases h : client.responses (mkResponsesRequest model input ts) <;>
    simp [invokeResponses, runProg, h]

/-! ### Claim theorems -/

/-- Claim C1: for every prompt, model identifier and tool set, and every
stubbed remote client returning a fixed payload, the single-shot query
invoker returns the service's response payload exactly as received: the
value delivered for display equals the client's response object, with no
transformation, filtering, or interpretation of tool-invocation
sub-results. -/
theorem invoker_passthrough (client : Client) (model prompt input : String)
    (ws : Bool) (ts : List String) (cc : ChatCompletion) (rr : ResponsesResponse)
    (hChat : ∀ r, client.chat r = .ok cc)
    (hResp : ∀ r, client.responses r = .ok rr) :
    (runProg client (invokeChat model prompt ws)).2 = .ok cc ∧
    (runProg client (invokeResponses model input ts)).2 = .ok rr := by
  rw [invokeChat_run, invokeResponses_run]
  exact ⟨hChat _, hResp _⟩

/-- Concrete instance of invoker_passthrough: a stubbed client with a fixed
one-choice completion and a fixed empty output list. -/
theorem invoker_passthrough_witness :
    (runProg (stubClient ⟨[⟨⟨"42"⟩⟩]⟩ ⟨.nil⟩) (invokeChat "gpt-4.1" "hi" true)).2
        = .ok ⟨[⟨⟨"42"⟩⟩]⟩ ∧
    (runProg (stubClient ⟨[⟨⟨"42"⟩⟩]⟩ ⟨.nil⟩)
        (invokeResponses "gpt-4.1-mini" "hello" ["web_search"])).2 = .ok ⟨.nil⟩ :=
  invoker_passthrough (stubClient ⟨[⟨⟨"42"⟩⟩]⟩ ⟨.nil⟩) "gpt-4.1" "hi" "hello"
    true ["web_search"] ⟨[⟨⟨"42"⟩⟩]⟩ ⟨.nil⟩ (fun _ => rfl) (fun _ => rfl)

/-- Claim C2: every error raised by the remote call (authentication,
network, invalid request, service error) is neither caught, translated nor
retried by the invoker: the exception propagates unchanged to the caller
and the single invocation fails. -/
theorem invoker_error_propagation (client : Client) (model prompt input : String)
    (ws : Bool) (ts : List String) (e1 e2 : PyErr)
    (hChat : client.chat (mkChatRequest model prompt ws) = .error e1)
    (hResp : client.responses (mkResponsesRequest model input ts) = .error e2) :
    (runProg client (invokeChat model prompt ws)).2 = .error e1 ∧
    (runProg client (invokeResponses model input ts)).2 = .error e2 := by
  rw [invokeChat_run, invokeResponses_run]
  exact ⟨hChat, hResp⟩

/-- Concrete instance of invoker_error_propagation: a stubbed client raising
a simulated authentication failure on every request. -/
theorem invoker_error_propagation_witness :
    (runProg (failClient (.apiError "authentication"))
        (invokeChat "gpt-4.1" "hi" true)).2 = .error (.apiError "authentication") ∧
    (runProg (failClient (.apiError "authentication"))
        (invokeResponses "gpt-4.1-mini" "hello" ["web_search"])).2 =
      .error (.apiError "authentication") :=
  invoker_error_propagation (failClient (.apiError "authentication"))
    "gpt-4.1" "hi" "hello" true ["web_search"]
    (.apiError "authentication") (.apiError "authentication") rfl rfl

/-- Claim C3: when the enabled tool set is empty, the constructed request
carries no tool-capability entry; when non-empty, the request carries
exactly the specified capability tags, no more and no fewer (and the chat
variant's web_search_options entry is present exactly when the capability
is enabled). -/
theorem request_tool_entries (model input prompt : String) (ts : List String) :
    (mkResponsesRequest model input []).tools = [] ∧
    (mkResponsesRequest model input ts).tools.map ToolEntry.type = ts ∧
    (mkChatRequest model prompt false).web_search_options = none ∧
    (mkChatRequest model prompt true).web_search_options = some [] := by
  refine ⟨rfl, ?_, rfl, rfl⟩
  simp only [mkResponsesRequest, List.map_map]
  exact List.map_id ts

/-- Claim C4: every invocation of the invoker performs exactly one outbound
network call to the remote service and has no other side effect — the
observable trace of an invocation is the single network-call event, with
no file write, no environment mutation and no additional request on any
path. -/
theorem invoker_single_net_call (client : Client) (model prompt input : String)
    (ws : Bool) (ts : List String) :
    (runProg client (invokeChat model prompt ws)).1 =
      [.netCallChat (mkChatRequest model prompt ws)] ∧
    (runProg client (invokeResponses model input ts)).1 =
      [.netCallResponses (mkResponsesRequest model input ts)] := by
  rw [invokeChat_run, invokeResponses_run]
  exact ⟨rfl, rfl⟩

/-- Claim C5: for every multi-item response output whose items are
attribute-carrying objects (tool-invocation records, messages, and their
sub-structures), the display step serializes successfully and produces the
indent-2 text rendering of a JSON array that preserves the items' order
and every field of every item: the array has the same length and the
original items are recovered in full from the serialized structure, so no
data is lost relative to the input. -/
theorem responses_display_lossless (items : PyList) (hplain : items.plainPy = true) :
    ∃ js : JList, serializeList items = some js ∧
      js.length = items.length ∧
      jsonToPyList js = items ∧
      displayResponses ⟨items⟩ = .ok (dumpJson 0 (.jarr js)) := by
  have hd := plainPyList_allDict items hplain
  have hs := serializeList_isSome_allDict items
  rw [hd] at hs
  cases hx : serializeList items with
  | none => rw [hx] at hs; simp at hs
  | some js =>
      refine ⟨js, rfl, serializeList_length items js hx,
        jsonToPyList_serializeList items hplain js hx, ?_⟩
      simp [displayResponses, hx]

/-- A stubbed two-item response output: one tool-invocation record and one
message, each an attribute-carrying object. -/
def sampleOutput : PyList :=
  .cons (.vobjD (.cons "type" (.vstr "web_search_call")
      (.cons "id" (.vstr "ws_1") (.cons "status" (.vstr "completed") .nil))))
    (.cons (.vobjD (.cons "type" (.vstr "message")
      (.cons "content" (.vstr "Here is a positive story.") .nil))) .nil)

/-- Concrete instance of responses_display_lossless at the stubbed two-item
output. -/
theorem responses_display_lossless_witness :
    ∃ js : JList, serializeList sampleOutput = some js ∧
      js.length = sampleOutput.length ∧
      jsonToPyList js = sampleOutput ∧
      displayResponses ⟨sampleOutput⟩ = .ok (dumpJson 0 (.jarr js)) :=
  responses_display_lossless sampleOutput rfl

/-- Claim C6: invoking the invoker with prompt p1 and then with prompt p2
issues two independent requests whose contents depend only on their own
prompt, model identifier and tool set: once the first call succeeds, the
combined run consists of the first request's network call followed exactly
by the trace and result of a fresh invocation with p2 — no state leaks
from the first call into the second. -/
theorem invoker_stateless (client : Client) (modelC modelR p1 p2 i1 i2 : String)
    (ws : Bool) (ts : List String) (c1 : ChatCompletion) (r1 : ResponsesResponse)
    (hChat : client.chat (mkChatRequest modelC p1 ws) = .ok c1)
    (hResp : client.responses (mkResponsesRequest modelR i1 ts) = .ok r1) :
    runProg client ((invokeChat modelC p1 ws).bind fun _ => invokeChat modelC p2 ws) =
      (.netCallChat (mkChatRequest modelC p1 ws) ::
          (runProg client (invokeChat modelC p2 ws)).1,
        (runProg client (invokeChat modelC p2 ws)).2) ∧
    runProg client
        ((invokeResponses modelR i1 ts).bind fun _ => invokeResponses modelR i2 ts) =
      (.netCallResponses (mkResponsesRequest modelR i1 ts) ::
          (runProg client (invokeResponses modelR i2 ts)).1,
        (runProg client (invokeResponses modelR i2 ts)).2) := by
  constructor
  · conv_lhs => simp only [invokeChat, Prog.bind]
    simp only [runProg, hChat]
  · conv_lhs => simp only [invokeResponses, Prog.bind]
    simp only [runProg, hResp]

/-- Concrete instance of invoker_stateless at a stubbed client and two
distinct prompts. -/
theorem invoker_stateless_witness :
    runProg (stubClient ⟨[]⟩ ⟨.nil⟩)
        ((invokeChat "gpt-4.1" "first" true).bind fun _ =>
          invokeChat "gpt-4.1" "second" true) =
      (.netCallChat (mkChatRequest "gpt-4.1" "first" true) ::
          (runProg (stubClient ⟨[]⟩ ⟨.nil⟩) (invokeChat "gpt-4.1" "second" true)).1,
        (runProg (stubClient ⟨[]⟩ ⟨.nil⟩) (invokeChat "gpt-4.1" "second" true)).2) ∧
    runProg (stubClient ⟨[]⟩ ⟨.nil⟩)
        ((invokeResponses "gpt-4.1-mini" "one" ["web_search"]).bind fun _ =>
          invokeResponses "gpt-4.1-mini" "two" ["web_search"]) =
      (.netCallResponses (mkResponsesRequest "gpt-4.1-mini" "one" ["web_search"]) ::
          (runProg (stubClient ⟨[]⟩ ⟨.nil⟩)
            (invokeResponses "gpt-4.1-mini" "two" ["web_search"])).1,
        (runProg (stubClient ⟨[]⟩ ⟨.nil⟩)
          (invokeResponses "gpt-4.1-mini" "two" ["web_search"])).2) :=
  invoker_stateless (stubClient ⟨[]⟩ ⟨.nil⟩) "gpt-4.1" "gpt-4.1-mini" "first"
    "second" "one" "two" true ["web_search"] ⟨[]⟩ ⟨.nil⟩ rfl rfl

set_option maxRecDepth 8192 in
/-- Claim C7: every request constructed by the program has a non-empty
prompt — each script's trace contains exactly its one hard-coded request,
whose message content (respectively input) is the non-empty hard-coded
prompt — and the model identifier undergoes no local validation: for every
model string whatsoever, the invoker's outcome is exactly the remote
client's verdict on the constructed request, so an invalid model name is
rejected only by the remote call, never before the request is sent. -/
theorem request_invariants_no_local_validation (client : Client)
    (model prompt input : String) (ws : Bool) (ts : List String) :
    ((runProg client chatScript).1.filterMap Effect.chatRequest? =
        [chatScriptRequest]) ∧
    ((runProg client responsesScript).1.filterMap Effect.responsesRequest? =
        [responsesScriptRequest]) ∧
    chatScriptRequest.messages.map ChatMessage.content = [chatPrompt] ∧
    0 < chatPrompt.length ∧
    responsesScriptRequest.input = responsesPrompt ∧
    0 < responsesPrompt.length ∧
    (runProg client (invokeChat model prompt ws)).2 =
      client.chat (mkChatRequest model prompt ws) ∧
    (runProg client (invokeResponses model input ts)).2 =
      client.responses (mkResponsesRequest model input ts) := by
  refine ⟨?_, ?_, rfl, by decide, rfl, by decide, ?_, ?_⟩
  · rcases chatScript_trace_shape client with h | ⟨s, h⟩ <;>
      simp [h, Effect.chatRequest?]
  · rcases responsesScript_trace_shape client with h | ⟨s, h⟩ <;>
      simp [h, Effect.responsesRequest?]
  · rw [invokeChat_run]
  · rw [invokeResponses_run]

/-- Claim C8: the chat-completion script indexes the response's choices
list at position 0 without a guard.  When the remote returns a completion
with a non-empty choices list, the script prints the first choice's
message content; when the choices list is empty, the display step raises
IndexError and nothing is printed — the non-empty-choices precondition is
required for the print to succeed. -/
theorem chat_display_index_guard (client : Client) (c : ChatCompletion)
    (h : client.chat chatScriptRequest = .ok c) :
    (c.choices = [] →
      runProg client chatScript =
        ([.netCallChat chatScriptRequest], .error .indexError)) ∧
    (∀ ch tl, c.choices = ch :: tl →
      runProg client chatScript =
        ([.netCallChat chatScriptRequest, .printOut ch.message.content], .ok ())) := by
  constructor
  · intro hc
    simp [chatScriptRequest] at h
    simp [chatScript, invokeChat, Prog.bind, runProg, chatScriptRequest, h,
      displayChat, hc]
  · intro ch tl hc
    simp [chatScriptRequest] at h
    simp [chatScript, invokeChat, Prog.bind, runProg, chatScriptRequest, h,
      displayChat, hc]

/-- Concrete instance of chat_display_index_guard: a stubbed client whose
completion has an empty choices list makes the script raise IndexError
without printing, and one with a single choice makes it print that
choice's content. -/
theorem chat_display_index_guard_witness :
    runProg (stubClient ⟨[]⟩ ⟨.nil⟩) chatScript =
      ([.netCallChat chatScriptRequest], .error .indexError) ∧
    runProg (stubClient ⟨[⟨⟨"42"⟩⟩]⟩ ⟨.nil⟩) chatScript =
      ([.netCallChat chatScriptRequest, .printOut "42"], .ok ()) :=
  ⟨(chat_display_index_guard (stubClient ⟨[]⟩ ⟨.nil⟩) ⟨[]⟩ rfl).1 rfl,
    (chat_display_index_guard (stubClient ⟨[⟨⟨"42"⟩⟩]⟩ ⟨.nil⟩) ⟨[⟨⟨"42"⟩⟩]⟩ rfl).2
      ⟨⟨"42"⟩⟩ [] rfl⟩

/-- Claim C9: the response script's serialization fallback maps every
non-native object to its attribute dictionary.  Serialization of a value
succeeds exactly when every reachable object carries an attribute
dictionary, and when some reachable sub-object lacks one the display step
raises AttributeError instead of producing text, so a script run given
such an output makes its one network call and terminates with the error,
printing nothing. -/
theorem serialization_fallback_attr_dict (client : Client) (v : PyVal)
    (r : ResponsesResponse) :
    ((serialize v).isSome = v.allDict) ∧
    ((serializeList r.output).isSome = r.output.allDict) ∧
    (r.output.allDict = false →
      displayResponses r = .error (.attributeError "__dict__")) ∧
    (client.responses responsesScriptRequest = .ok r → r.output.allDict = false →
      runProg client responsesScript =
        ([.netCallResponses responsesScriptRequest],
          .error (.attributeError "__dict__"))) := by
  have hdisp : r.output.allDict = false →
      displayResponses r = .error (.attributeError "__dict__") := by
    intro hfail
    have hs := serializeList_isSome_allDict r.output
    rw [hfail] at hs
    cases hx : serializeList r.output with
    | none => simp [displayResponses, hx]
    | some js => rw [hx] at hs; simp at hs
  refine ⟨serialize_isSome_allDict v, serializeList_isSome_allDict r.output,
    hdisp, ?_⟩
  intro h hfail
  simp [responsesScriptRequest] at h
  simp [responsesScript, invokeResponses, Prog.bind, runProg,
    responsesScriptRequest, h, hdisp hfail]

/-- Concrete instance of serialization_fallback_attr_dict: an output list
holding one slotted object (no attribute dictionary) fails to serialize
and the script run ends with AttributeError after its single network
call. -/
theorem serialization_fallback_attr_dict_witness :
    ((serialize .vobjS).isSome = PyVal.vobjS.allDict) ∧
    ((serializeList (.cons .vobjS .nil)).isSome = (PyList.cons .vobjS .nil).allDict) ∧
    displayResponses ⟨.cons .vobjS .nil⟩ = .error (.attributeError "__dict__") ∧
    runProg (stubClient ⟨[]⟩ ⟨.cons .vobjS .nil⟩) responsesScript =
      ([.netCallResponses responsesScriptRequest],
        .error (.attributeError "__dict__")) := by
  have h := serialization_fallback_attr_dict (stubClient ⟨[]⟩ ⟨.cons .vobjS .nil⟩)
    .vobjS ⟨.cons .vobjS .nil⟩
  exact ⟨h.1, h.2.1, h.2.2.1 rfl, h.2.2.2 rfl rfl⟩

/-- Claim C10: in every execution of either script the web-search tool
capability is enabled in the outgoing request — as a present (empty)
web_search_options mapping in the chat-completion script and as a tools
list containing exactly the web_search entry in the response script; no
execution path constructs a request with the tool disabled. -/
theorem web_search_always_enabled (client : Client) :
    (∀ req, Effect.netCallChat req ∈ (runProg client chatScript).1 →
        req.web_search_options = some []) ∧
    (∀ req, Effect.netCallResponses req ∈ (runProg client responsesScript).1 →
        req.tools = [ToolEntry.mk "web_search"]) ∧
    chatScriptRequest.web_search_options = some [] ∧
    responsesScriptRequest.tools = [ToolEntry.mk "web_search"] := by
  refine ⟨?_, ?_, rfl, rfl⟩
  · intro req hreq
    rcases chatScript_trace_shape client with h | ⟨s, h⟩ <;> rw [h] at hreq <;>
      simp at hreq <;> subst hreq <;> rfl
  · intro req hreq
    rcases responsesScript_trace_shape client with h | ⟨s, h⟩ <;> rw [h] at hreq <;>
      simp at hreq <;> subst hreq <;> rfl

end WebSearchScripts
